import Mathlib

/-!
Verification of the per-frame control loop of `spaint`'s SLAM pipeline
component (`SLAMComponent::run` in
`src/modules/spaint/src/pipelinecomponents/SLAMComponent.cpp`).

The controller is embedded shallowly as a pure state-transition function.
External collaborators (frame source, view builder, tracker, relocaliser,
dense mapper) are modelled as per-frame oracle inputs (`FrameInput`), and
every externally observable side effect (tracker invocations, fusion,
visibility updates, pose-database stores, render preparation) is recorded
in an event trace, in the order the C++ code performs them.  Poses are
opaque values; we model them as integers since the controller only copies
and stores them, never inspects them.
-/

namespace Spaint

/-- Opaque 6-DoF pose (`ORUtils::SE3Pose`); the controller only copies,
snapshots, stores and restores poses, so an opaque scalar suffices. -/
abbrev Pose := Int

/-- `ITMTrackingState::TrackingResult`. -/
inductive TrackingResult where
  | GOOD
  | POOR
  | FAILED
deriving DecidableEq, Repr

/-- `ITMLibSettings` failure-mode setting (`behaviourOnFailure`). -/
inductive FailureMode where
  | RELOCALISE
  | STOP_INTEGRATION
  | IGNORE
deriving DecidableEq, Repr

/-- The per-session mutable state of `SLAMComponent` that the `run`
control loop reads and writes: the fusion counters and flag
(`m_fusedFramesCount`, `m_fusionEnabled`, `m_initialFramesToFuse`,
`m_keyframeDelay`), the tracking state (`trackingState->pose_d` and
`trackingState->trackerResult`), and the pose database
(`m_poseDatabase`, modelled as an association list, latest entry
first). -/
structure SLAMState where
  fusedFramesCount : Nat
  fusionEnabled : Bool
  initialFramesToFuse : Nat
  keyframeDelay : Nat
  pose : Pose
  trackerResult : TrackingResult
  poseDB : List (Int × Pose)
deriving DecidableEq, Repr

/-- One call's worth of oracle answers from the external collaborators:
whether the frame source has more images, whether the active sub-engine
still has images, the result of each possible tracker invocation this
frame (as a function of the pose it is invoked with), the relocaliser's
answer (as a function of the keyframe-candidacy flag it is passed,
returning the new keyframe id — negative for none — and the nearest
neighbour id — `-1` for none), and the fallible tracker's lost-tracking
report (`none` when no fallible tracker is installed). -/
structure FrameInput where
  hasMoreImages : Bool
  substreamHasMore : Bool
  track1 : Pose → Pose × TrackingResult
  track2 : Pose → Pose × TrackingResult
  reloc : Bool → Int × Int
  fallibleLost : Option Bool

/-- Observable side effects of one `run` call, in program order. -/
inductive Event where
  | track (p : Pose)
  | retrack (p : Pose)
  | relocProcess (considerKeyframe : Bool)
  | storePose (id : Int) (p : Pose)
  | updateVisible (reset : Bool)
  | fuse
  | prepare
deriving DecidableEq, Repr

/-- Result of one `run` call: the returned boolean, the updated session
state, the event trace, and (for processed frames) the raw tracker
verdict read at line 119, the effective verdict used by the fusion gate,
and the keyframe-candidacy flag passed to the relocaliser (`false` when
the relocalise policy is not active). -/
structure RunResult where
  ok : Bool
  state : SLAMState
  events : List Event
  raw : TrackingResult
  eff : TrackingResult
  considerKeyframe : Bool
deriving DecidableEq, Repr

/-- `PoseDatabase::storePose`. -/
def dbStore (db : List (Int × Pose)) (id : Int) (p : Pose) : List (Int × Pose) :=
  (id, p) :: db

/-- `PoseDatabase::retrievePose` (its value on an id that was never
stored is outside the database's contract; we default it). -/
def dbRetrieve (db : List (Int × Pose)) (id : Int) : Pose :=
  (db.lookup id).getD 0

/-- The verdict read from the tracking state at line 119: the result of
the line-116 `Track` call when reconstruction has started
(`m_fusedFramesCount > 0`), otherwise the verdict left over in the
tracking state. -/
def rawVerdict (s : SLAMState) (f : FrameInput) : TrackingResult :=
  if 0 < s.fusedFramesCount then (f.track1 s.pose).2 else s.trackerResult

/-- Outcome of the failure-mode `switch` (lines 120-181): updated state,
the (possibly transformed) local `trackerResult` used by the fusion
gate, the events of this phase, and the candidacy flag passed to the
relocaliser. -/
structure PolicyOutcome where
  state : SLAMState
  eff : TrackingResult
  events : List Event
  considerKeyframe : Bool

/-- The failure-mode `switch` (lines 120-181), given the state after the
line-116 tracking step and the raw verdict. -/
def resolveFailureMode (mode : FailureMode) (s : SLAMState) (f : FrameInput)
    (raw : TrackingResult) : PolicyOutcome :=
  match mode with
  | .RELOCALISE =>
    -- Lines 128-133: decide keyframe candidacy, decrementing the delay
    -- on good-tracking frames while the cooldown is still running.
    let considerKeyframe : Bool := raw == .GOOD && s.keyframeDelay == 0
    let s1 := if raw == .GOOD && s.keyframeDelay != 0 then
                { s with keyframeDelay := s.keyframeDelay - 1 }
              else s
    -- Line 139: process the frame with the relocaliser.
    let kn := f.reloc considerKeyframe
    let keyframeID := kn.1
    let nearestNeighbour := kn.2
    if 0 ≤ keyframeID then
      -- Lines 141-146: the relocaliser accepted a new keyframe; persist
      -- the current pose under its id.
      { state := { s1 with poseDB := dbStore s1.poseDB keyframeID s1.pose },
        eff := raw,
        events := [.relocProcess considerKeyframe, .storePose keyframeID s1.pose],
        considerKeyframe := considerKeyframe }
    else if raw == .FAILED && nearestNeighbour != -1 then
      -- Lines 147-162: relocalisation recovery.
      let nnPose := dbRetrieve s1.poseDB nearestNeighbour
      let tr := f.track2 nnPose
      { state := { s1 with pose := tr.1, trackerResult := tr.2, keyframeDelay := 10 },
        eff := tr.2,
        events := [.relocProcess considerKeyframe, .updateVisible true,
                   .prepare, .retrack nnPose],
        considerKeyframe := considerKeyframe }
    else
      { state := s1, eff := raw,
        events := [.relocProcess considerKeyframe],
        considerKeyframe := considerKeyframe }
  | .STOP_INTEGRATION =>
    -- Lines 166-172: treat tracking failure as poor tracking.
    { state := s, eff := if raw == .FAILED then .POOR else raw,
      events := [], considerKeyframe := false }
  | .IGNORE =>
    -- Lines 174-180: disregard the tracking-quality signal entirely.
    { state := s, eff := .GOOD, events := [], considerKeyframe := false }

/-- The fusion gate (lines 184-190). -/
def fusionGate (s : SLAMState) (f : FrameInput) (eff : TrackingResult) : Bool :=
  s.fusionEnabled &&
    !(eff == .FAILED ||
      (eff == .POOR && decide (s.initialFramesToFuse ≤ s.fusedFramesCount)) ||
      f.fallibleLost == some true)

/-- The line-116 tracking step: invoke the tracker only once
reconstruction has started (`m_fusedFramesCount > 0`); it updates the
pose and the verdict in the tracking state. -/
def trackStep (s : SLAMState) (f : FrameInput) : SLAMState :=
  if 0 < s.fusedFramesCount then
    { s with pose := (f.track1 s.pose).1, trackerResult := (f.track1 s.pose).2 }
  else s

/-- Lines 184-215: the fusion gate, the fuse / visibility-update /
rollback outcome, the final render preparation, and the end-of-call
exhaustion check.  `s0` is the state at entry (its pose is the line-115
rollback snapshot), `po` the outcome of the failure-mode switch, `e1`
and `raw` the events and raw verdict of the tracking phase. -/
def finishFrame (s0 : SLAMState) (f : FrameInput) (e1 : List Event)
    (po : PolicyOutcome) (raw : TrackingResult) : RunResult :=
  let runFusion := fusionGate po.state f po.eff
  -- Lines 192-207: fuse, or update visibility, or roll the pose back.
  let s3 := if runFusion then
              { po.state with fusedFramesCount := po.state.fusedFramesCount + 1 }
            else if po.eff != .FAILED then po.state
            else { po.state with pose := s0.pose }
  let e3 : List Event := if runFusion then [.fuse]
                         else if po.eff != .FAILED then [.updateVisible false]
                         else []
  -- Line 213: one-way disable of fusion when the sub-engine is exhausted.
  let s4 := if f.substreamHasMore = false then { s3 with fusionEnabled := false } else s3
  { ok := true, state := s4,
    events := e1 ++ po.events ++ e3 ++ [.prepare],
    raw := raw, eff := po.eff, considerKeyframe := po.considerKeyframe }

/-- The body of `SLAMComponent::run` after the frame-availability check
(lines 100-215). -/
def runFrame (mode : FailureMode) (s0 : SLAMState) (f : FrameInput) : RunResult :=
  let s1 := trackStep s0 f
  let e1 : List Event := if 0 < s0.fusedFramesCount then [.track s0.pose] else []
  finishFrame s0 f e1 (resolveFailureMode mode s1 f s1.trackerResult) s1.trackerResult

/-- `SLAMComponent::run` (lines 96-216). -/
def run (mode : FailureMode) (s : SLAMState) (f : FrameInput) : RunResult :=
  if f.hasMoreImages = false then
    -- Line 98: no frame available; return false without touching state.
    { ok := false, state := s, events := [],
      raw := s.trackerResult, eff := s.trackerResult, considerKeyframe := false }
  else
    runFrame mode s f

/-- `SLAMComponent::set_fusion_enabled` (lines 218-221). -/
def set_fusion_enabled (s : SLAMState) (fusionEnabled : Bool) : SLAMState :=
  { s with fusionEnabled := fusionEnabled }

/-- `SLAMComponent::get_fusion_enabled` (lines 91-94). -/
def get_fusion_enabled (s : SLAMState) : Bool :=
  s.fusionEnabled

/-- A sequence of `run` calls: final state plus the per-call results. -/
def runTrace (mode : FailureMode) (s : SLAMState) : List FrameInput → SLAMState × List RunResult
  | [] => (s, [])
  | f :: fs =>
    let r := run mode s f
    let rest := runTrace mode r.state fs
    (rest.1, r :: rest.2)

/-! ### Basic lemmas about the phases -/

theorem trackStep_fusedFramesCount (s : SLAMState) (f : FrameInput) :
    (trackStep s f).fusedFramesCount = s.fusedFramesCount := by
  unfold trackStep; split <;> rfl

theorem trackStep_fusionEnabled (s : SLAMState) (f : FrameInput) :
    (trackStep s f).fusionEnabled = s.fusionEnabled := by
  unfold trackStep; split <;> rfl

theorem trackStep_initialFramesToFuse (s : SLAMState) (f : FrameInput) :
    (trackStep s f).initialFramesToFuse = s.initialFramesToFuse := by
  unfold trackStep; split <;> rfl

theorem trackStep_keyframeDelay (s : SLAMState) (f : FrameInput) :
    (trackStep s f).keyframeDelay = s.keyframeDelay := by
  unfold trackStep; split <;> rfl

theorem trackStep_poseDB (s : SLAMState) (f : FrameInput) :
    (trackStep s f).poseDB = s.poseDB := by
  unfold trackStep; split <;> rfl

theorem resolve_fusedFramesCount (mode : FailureMode) (s : SLAMState) (f : FrameInput)
    (raw : TrackingResult) :
    (resolveFailureMode mode s f raw).state.fusedFramesCount = s.fusedFramesCount := by
  unfold resolveFailureMode
  cases mode <;> dsimp only <;> (try rfl)
  split
  · split <;> rfl
  · split
    · split <;> rfl
    · split <;> rfl

theorem resolve_fusionEnabled (mode : FailureMode) (s : SLAMState) (f : FrameInput)
    (raw : TrackingResult) :
    (resolveFailureMode mode s f raw).state.fusionEnabled = s.fusionEnabled := by
  unfold resolveFailureMode
  cases mode <;> dsimp only <;> (try rfl)
  split
  · split <;> rfl
  · split
    · split <;> rfl
    · split <;> rfl

theorem resolve_initialFramesToFuse (mode : FailureMode) (s : SLAMState) (f : FrameInput)
    (raw : TrackingResult) :
    (resolveFailureMode mode s f raw).state.initialFramesToFuse = s.initialFramesToFuse := by
  unfold resolveFailureMode
  cases mode <;> dsimp only <;> (try rfl)
  split
  · split <;> rfl
  · split
    · split <;> rfl
    · split <;> rfl

theorem resolve_fuse_not_mem (mode : FailureMode) (s : SLAMState) (f : FrameInput)
    (raw : TrackingResult) :
    Event.fuse ∉ (resolveFailureMode mode s f raw).events := by
  unfold resolveFailureMode
  cases mode <;> dsimp only <;> (try simp)
  split
  · simp
  · split <;> simp

theorem resolve_track_not_mem (mode : FailureMode) (s : SLAMState) (f : FrameInput)
    (raw : TrackingResult) (p : Pose) :
    Event.track p ∉ (resolveFailureMode mode s f raw).events := by
  unfold resolveFailureMode
  cases mode <;> dsimp only <;> (try simp)
  split
  · simp
  · split <;> simp

theorem finishFrame_eff (s0 : SLAMState) (f : FrameInput) (e1 : List Event)
    (po : PolicyOutcome) (raw : TrackingResult) :
    (finishFrame s0 f e1 po raw).eff = po.eff := rfl

theorem finishFrame_raw (s0 : SLAMState) (f : FrameInput) (e1 : List Event)
    (po : PolicyOutcome) (raw : TrackingResult) :
    (finishFrame s0 f e1 po raw).raw = raw := rfl

theorem finishFrame_ok (s0 : SLAMState) (f : FrameInput) (e1 : List Event)
    (po : PolicyOutcome) (raw : TrackingResult) :
    (finishFrame s0 f e1 po raw).ok = true := rfl

theorem finishFrame_considerKeyframe (s0 : SLAMState) (f : FrameInput) (e1 : List Event)
    (po : PolicyOutcome) (raw : TrackingResult) :
    (finishFrame s0 f e1 po raw).considerKeyframe = po.considerKeyframe := rfl

/-- The fusion gate, spelled out as a proposition. -/
theorem fusionGate_eq_true_iff (st : SLAMState) (f : FrameInput) (eff : TrackingResult) :
    fusionGate st f eff = true ↔
      st.fusionEnabled = true ∧ eff ≠ .FAILED ∧
        (eff ≠ .POOR ∨ st.fusedFramesCount < st.initialFramesToFuse) ∧
        f.fallibleLost ≠ some true := by
  unfold fusionGate
  cases eff <;> cases h : f.fallibleLost <;>
    simp [Nat.lt_iff_add_one_le, Nat.not_le, or_comm]

theorem finishFrame_pose_of_failed (s0 : SLAMState) (f : FrameInput) (e1 : List Event)
    (po : PolicyOutcome) (raw : TrackingResult) (h : po.eff = .FAILED) :
    (finishFrame s0 f e1 po raw).state.pose = s0.pose := by
  have hg : fusionGate po.state f po.eff = false := by
    unfold fusionGate; rw [h]; simp
  unfold finishFrame
  dsimp only
  rw [hg, h]
  simp
  split <;> rfl

theorem finishFrame_fuse_mem_iff (s0 : SLAMState) (f : FrameInput) (e1 : List Event)
    (po : PolicyOutcome) (raw : TrackingResult)
    (h1 : Event.fuse ∉ e1) (h2 : Event.fuse ∉ po.events) :
    (Event.fuse ∈ (finishFrame s0 f e1 po raw).events ↔
      fusionGate po.state f po.eff = true) := by
  unfold finishFrame
  dsimp only
  simp [h1, h2]
  split
  · simp_all
  · split <;> simp_all

theorem finishFrame_fusedFramesCount (s0 : SLAMState) (f : FrameInput) (e1 : List Event)
    (po : PolicyOutcome) (raw : TrackingResult) :
    (finishFrame s0 f e1 po raw).state.fusedFramesCount =
      (if fusionGate po.state f po.eff then po.state.fusedFramesCount + 1
       else po.state.fusedFramesCount) := by
  unfold finishFrame
  cases hg : fusionGate po.state f po.eff <;>
    cases he : po.eff != TrackingResult.FAILED <;>
      cases hs : f.substreamHasMore <;>
        simp [hg, he, hs]

theorem finishFrame_keyframeDelay (s0 : SLAMState) (f : FrameInput) (e1 : List Event)
    (po : PolicyOutcome) (raw : TrackingResult) :
    (finishFrame s0 f e1 po raw).state.keyframeDelay = po.state.keyframeDelay := by
  unfold finishFrame
  cases hg : fusionGate po.state f po.eff <;>
    cases he : po.eff != TrackingResult.FAILED <;>
      cases hs : f.substreamHasMore <;>
        simp [hg, he, hs]

theorem finishFrame_trackerResult (s0 : SLAMState) (f : FrameInput) (e1 : List Event)
    (po : PolicyOutcome) (raw : TrackingResult) :
    (finishFrame s0 f e1 po raw).state.trackerResult = po.state.trackerResult := by
  unfold finishFrame
  cases hg : fusionGate po.state f po.eff <;>
    cases he : po.eff != TrackingResult.FAILED <;>
      cases hs : f.substreamHasMore <;>
        simp [hg, he, hs]

theorem finishFrame_poseDB (s0 : SLAMState) (f : FrameInput) (e1 : List Event)
    (po : PolicyOutcome) (raw : TrackingResult) :
    (finishFrame s0 f e1 po raw).state.poseDB = po.state.poseDB := by
  unfold finishFrame
  cases hg : fusionGate po.state f po.eff <;>
    cases he : po.eff != TrackingResult.FAILED <;>
      cases hs : f.substreamHasMore <;>
        simp [hg, he, hs]

theorem finishFrame_fusionEnabled (s0 : SLAMState) (f : FrameInput) (e1 : List Event)
    (po : PolicyOutcome) (raw : TrackingResult) :
    (finishFrame s0 f e1 po raw).state.fusionEnabled =
      (if f.substreamHasMore = false then false else po.state.fusionEnabled) := by
  unfold finishFrame
  cases hg : fusionGate po.state f po.eff <;>
    cases he : po.eff != TrackingResult.FAILED <;>
      cases hs : f.substreamHasMore <;>
        simp [hg, he, hs]

theorem finishFrame_fusionEnabled_exhausted (s0 : SLAMState) (f : FrameInput)
    (e1 : List Event) (po : PolicyOutcome) (raw : TrackingResult)
    (h : f.substreamHasMore = false) :
    (finishFrame s0 f e1 po raw).state.fusionEnabled = false := by
  unfold finishFrame
  dsimp only
  rw [if_pos h]

theorem finishFrame_track_not_mem (s0 : SLAMState) (f : FrameInput) (e1 : List Event)
    (po : PolicyOutcome) (raw : TrackingResult) (p : Pose)
    (h1 : Event.track p ∉ e1) (h2 : Event.track p ∉ po.events) :
    Event.track p ∉ (finishFrame s0 f e1 po raw).events := by
  unfold finishFrame
  dsimp only
  simp [h1, h2]
  split
  · simp
  · split <;> simp

theorem finishFrame_mem_of_policy (s0 : SLAMState) (f : FrameInput) (e1 : List Event)
    (po : PolicyOutcome) (raw : TrackingResult) (e : Event) (h : e ∈ po.events) :
    e ∈ (finishFrame s0 f e1 po raw).events := by
  unfold finishFrame
  dsimp only
  simp [h]

theorem finishFrame_events (s0 : SLAMState) (f : FrameInput) (e1 : List Event)
    (po : PolicyOutcome) (raw : TrackingResult) :
    (finishFrame s0 f e1 po raw).events =
      e1 ++ po.events ++
        (if fusionGate po.state f po.eff then [Event.fuse]
         else if po.eff != .FAILED then [Event.updateVisible false] else []) ++
      [Event.prepare] := by
  unfold finishFrame
  cases hg : fusionGate po.state f po.eff <;>
    cases he : po.eff != TrackingResult.FAILED <;> simp [hg, he]

theorem infix_middle {α : Type} (a b c d : List α) : List.IsInfix b (a ++ b ++ c ++ d) :=
  ⟨a, c ++ d, by simp⟩

/-! ### The relocalise failure-mode branch, case by case -/

/-- The candidacy flag passed to the relocaliser (lines 128-133). -/
theorem resolveReloc_considerKeyframe (s : SLAMState) (f : FrameInput)
    (raw : TrackingResult) :
    (resolveFailureMode .RELOCALISE s f raw).considerKeyframe =
      (raw == .GOOD && s.keyframeDelay == 0) := by
  unfold resolveFailureMode
  dsimp only
  split
  · rfl
  · split <;> rfl

/-- Lines 141-146: when the relocaliser returns a new keyframe id, the
verdict is left alone and the current pose is stored under that id. -/
theorem resolveReloc_store (s : SLAMState) (f : FrameInput) (raw : TrackingResult)
    (h : 0 ≤ (f.reloc (raw == .GOOD && s.keyframeDelay == 0)).1) :
    (resolveFailureMode .RELOCALISE s f raw).eff = raw ∧
    Event.storePose (f.reloc (raw == .GOOD && s.keyframeDelay == 0)).1 s.pose ∈
      (resolveFailureMode .RELOCALISE s f raw).events ∧
    ((f.reloc (raw == .GOOD && s.keyframeDelay == 0)).1, s.pose) ∈
      (resolveFailureMode .RELOCALISE s f raw).state.poseDB := by
  unfold resolveFailureMode
  dsimp only
  rw [if_pos h]
  refine ⟨rfl, ?_, ?_⟩
  · split <;> simp
  · unfold dbStore
    split <;> simp

/-- Lines 147-162: relocalisation recovery on a FAILED frame with a
nearest neighbour and no new keyframe. -/
theorem resolveReloc_recover (s : SLAMState) (f : FrameInput)
    (hkid : (f.reloc false).1 < 0) (hnn : (f.reloc false).2 ≠ -1) :
    (resolveFailureMode .RELOCALISE s f .FAILED).eff =
      (f.track2 (dbRetrieve s.poseDB (f.reloc false).2)).2 ∧
    (resolveFailureMode .RELOCALISE s f .FAILED).events =
      [.relocProcess false, .updateVisible true, .prepare,
        .retrack (dbRetrieve s.poseDB (f.reloc false).2)] ∧
    (resolveFailureMode .RELOCALISE s f .FAILED).state.keyframeDelay = 10 ∧
    (resolveFailureMode .RELOCALISE s f .FAILED).state.trackerResult =
      (f.track2 (dbRetrieve s.poseDB (f.reloc false).2)).2 ∧
    (resolveFailureMode .RELOCALISE s f .FAILED).state.pose =
      (f.track2 (dbRetrieve s.poseDB (f.reloc false).2)).1 := by
  unfold resolveFailureMode
  dsimp only
  have e1 : (TrackingResult.FAILED == TrackingResult.GOOD) = false := rfl
  have e2 : (TrackingResult.FAILED == TrackingResult.FAILED) = true := rfl
  simp only [e1, e2, Bool.false_and, Bool.true_and, Bool.false_eq_true, if_false,
    if_neg (Int.not_le.mpr hkid), if_pos (bne_iff_ne.mpr hnn)]
  exact ⟨trivial, trivial, trivial, trivial, trivial⟩

/-- How the keyframe cooldown can evolve over one resolution of the
relocalise policy: either a recovery reset it to 10, or it followed the
lines-128-133 countdown (dropping by one exactly on a GOOD-raw frame
with a running cooldown). -/
theorem resolveReloc_keyframeDelay_mem (s : SLAMState) (f : FrameInput)
    (raw : TrackingResult) :
    (resolveFailureMode .RELOCALISE s f raw).state.keyframeDelay = 10 ∨
    (resolveFailureMode .RELOCALISE s f raw).state.keyframeDelay =
      (if raw == .GOOD && s.keyframeDelay != 0 then s.keyframeDelay - 1
       else s.keyframeDelay) := by
  unfold resolveFailureMode
  dsimp only
  split
  · right
    split <;> rfl
  · split
    · left; rfl
    · right
      split <;> rfl

/-- One `run` call under the relocalise policy: starting at or below the
cooldown cap, the delay stays at or below the cap and drops by at most
one, and only when the frame was processed with a GOOD raw verdict. -/
theorem run_keyframeDelay_ge (s : SLAMState) (f : FrameInput)
    (hd : s.keyframeDelay ≤ 10) :
    s.keyframeDelay -
        (if (run .RELOCALISE s f).ok && ((run .RELOCALISE s f).raw == TrackingResult.GOOD)
         then 1 else 0) ≤
      (run .RELOCALISE s f).state.keyframeDelay ∧
    (run .RELOCALISE s f).state.keyframeDelay ≤ 10 := by
  by_cases hm : f.hasMoreImages = false
  · rw [run, if_pos hm]
    constructor
    · exact Nat.sub_le _ _
    · exact hd
  · rw [run, if_neg hm]
    simp only [runFrame, finishFrame_keyframeDelay, finishFrame_ok, finishFrame_raw]
    have h := resolveReloc_keyframeDelay_mem (trackStep s f) f (trackStep s f).trackerResult
    rw [trackStep_keyframeDelay] at h
    by_cases hG : (trackStep s f).trackerResult = TrackingResult.GOOD
    · have hb : ((trackStep s f).trackerResult == TrackingResult.GOOD) = true := by
        simp [hG]
      have hcond : (true && ((trackStep s f).trackerResult == TrackingResult.GOOD)) = true := by
        rw [Bool.true_and]; exact hb
      rw [if_pos hcond]
      simp only [hb, Bool.true_and] at h
      by_cases h0 : s.keyframeDelay = 0
      · have h1 : (s.keyframeDelay != 0) = false := by simp [h0]
        rw [h1] at h
        simp only [Bool.false_eq_true, if_false] at h
        rcases h with h | h <;> rw [h] <;> omega
      · have h1 : (s.keyframeDelay != 0) = true := by simp [h0]
        rw [h1] at h
        simp only [eq_self_iff_true, if_true] at h
        rcases h with h | h <;> rw [h] <;> omega
    · have hb : ((trackStep s f).trackerResult == TrackingResult.GOOD) = false := by
        simp
        exact hG
      have hcond : ¬ ((true && ((trackStep s f).trackerResult == TrackingResult.GOOD)) = true) := by
        rw [Bool.true_and, hb]
        simp
      rw [if_neg hcond]
      simp only [hb, Bool.false_and, Bool.false_eq_true, if_false] at h
      rcases h with h | h <;> rw [h] <;> omega

/-- The candidacy flag can only be passed as true on a processed frame
whose raw verdict is GOOD while the cooldown is zero. -/
theorem run_considerKeyframe_facts (s : SLAMState) (f : FrameInput)
    (h : (run .RELOCALISE s f).considerKeyframe = true) :
    (run .RELOCALISE s f).ok = true ∧
      (run .RELOCALISE s f).raw = TrackingResult.GOOD ∧ s.keyframeDelay = 0 := by
  by_cases hm : f.hasMoreImages = false
  · rw [run, if_pos hm] at h
    exact absurd h (by simp)
  · rw [run, if_neg hm] at h ⊢
    simp only [runFrame] at h ⊢
    rw [finishFrame_considerKeyframe, resolveReloc_considerKeyframe,
        trackStep_keyframeDelay] at h
    simp only [Bool.and_eq_true, beq_iff_eq] at h
    rw [finishFrame_ok, finishFrame_raw]
    exact ⟨rfl, h.1, h.2⟩

/-- Invariant behind the keyframe cooldown: starting at or below the
cooldown cap, if some frame of a trace under the relocalise policy
passes the candidacy flag as true, then strictly more than
`keyframeDelay` processed frames of the trace had a GOOD raw verdict. -/
theorem cooldown_invariant :
    ∀ (fs : List FrameInput) (s : SLAMState), s.keyframeDelay ≤ 10 →
      ∀ r : RunResult,
        r ∈ (runTrace .RELOCALISE s fs).2 → r.considerKeyframe = true →
        s.keyframeDelay <
          (runTrace .RELOCALISE s fs).2.countP
            (fun x => x.ok && (x.raw == TrackingResult.GOOD))
  | [], s => by
    intro _ r hr
    simp [runTrace] at hr
  | f :: fs, s => by
    intro hd r hr hflag
    simp only [runTrace, List.mem_cons] at hr
    simp only [runTrace, List.countP_cons]
    rcases hr with hr | hr
    · subst hr
      obtain ⟨hok, hG, hzero⟩ := run_considerKeyframe_facts s f hflag
      rw [hzero]
      have hp : ((run .RELOCALISE s f).ok &&
          ((run .RELOCALISE s f).raw == TrackingResult.GOOD)) = true := by
        rw [hok, hG]; rfl
      rw [if_pos hp]
      omega
    · have hge := run_keyframeDelay_ge s f hd
      have ih := cooldown_invariant fs (run .RELOCALISE s f).state hge.2 r hr hflag
      by_cases hp : ((run .RELOCALISE s f).ok &&
          ((run .RELOCALISE s f).raw == TrackingResult.GOOD)) = true
      · rw [if_pos hp] at hge ⊢
        omega
      · rw [if_neg hp] at hge ⊢
        omega

/-! ### Concrete fixtures used by the witnesses and counterexamples -/

/-- The session state as initialised by the constructor (lines 32-36):
no fused frames yet, fusion enabled, `initialFramesToFuse = 50`, no
keyframe cooldown, empty pose database. -/
def sInit : SLAMState :=
  { fusedFramesCount := 0, fusionEnabled := true, initialFramesToFuse := 50,
    keyframeDelay := 0, pose := 0, trackerResult := .GOOD, poseDB := [] }

/-- A frame on which the frame source is exhausted. -/
def frameNone : FrameInput :=
  { hasMoreImages := false, substreamHasMore := true,
    track1 := fun p => (p, .GOOD), track2 := fun p => (p, .GOOD),
    reloc := fun _ => (-1, -1), fallibleLost := none }

/-- An ordinary frame: available, sub-stream not exhausted, tracker
reports GOOD without moving the pose, relocaliser finds nothing. -/
def frameBasic : FrameInput :=
  { frameNone with hasMoreImages := true }

/-! ### Claim theorems -/

/-- Claim C8: a `run()` call made when the frame source reports no more
images returns `false` immediately and mutates no session state
(`fusedFramesCount`, pose, `keyframeDelay` and `FusionEnabled` are all
unchanged, the whole state being equal), performing no side effect. -/
theorem run_no_frame_noop (mode : FailureMode) (s : SLAMState) (f : FrameInput)
    (h : f.hasMoreImages = false) :
    (run mode s f).ok = false ∧ (run mode s f).state = s ∧ (run mode s f).events = [] := by
  rw [run, if_pos h]
  exact ⟨rfl, rfl, rfl⟩

theorem run_no_frame_noop_witness :
    frameNone.hasMoreImages = false ∧
      ((run .IGNORE sInit frameNone).ok = false ∧
       (run .IGNORE sInit frameNone).state = sInit ∧
       (run .IGNORE sInit frameNone).events = []) :=
  ⟨rfl, run_no_frame_noop .IGNORE sInit frameNone rfl⟩

/-- Claim C2: after any `run()` call that returns `true` with effective
verdict FAILED (so that fusion is not permitted), the pose in the
tracking state equals the pose observed immediately before the call
(the line-115 snapshot): all tracker movement for the frame, including
any pose substituted during relocalisation recovery, is discarded. -/
theorem failed_verdict_pose_rollback (mode : FailureMode) (s : SLAMState) (f : FrameInput)
    (hok : (run mode s f).ok = true) (heff : (run mode s f).eff = .FAILED) :
    (run mode s f).state.pose = s.pose := by
  by_cases hm : f.hasMoreImages = false
  · rw [run, if_pos hm] at hok
    exact absurd hok (by simp)
  · rw [run, if_neg hm] at heff ⊢
    simp only [runFrame] at heff ⊢
    rw [finishFrame_eff] at heff
    exact finishFrame_pose_of_failed _ _ _ _ _ heff

/-- A state whose leftover tracker verdict is FAILED, as left by a
previous tracking failure before reconstruction started. -/
def sFailed : SLAMState :=
  { sInit with trackerResult := .FAILED }

theorem failed_verdict_pose_rollback_witness :
    (run .RELOCALISE sFailed frameBasic).ok = true ∧
      (run .RELOCALISE sFailed frameBasic).eff = .FAILED ∧
      (run .RELOCALISE sFailed frameBasic).state.pose = sFailed.pose :=
  ⟨by decide, by decide,
   failed_verdict_pose_rollback .RELOCALISE sFailed frameBasic (by decide) (by decide)⟩

/-- Claim C1: on a processed frame, fusion executes iff the session's
`FusionEnabled` flag is true, the effective verdict (after failure-mode
resolution) is not FAILED, the effective verdict is not POOR or
`fusedFramesCount < initialFramesToFuse`, and the fallible tracker, when
present, does not report lost tracking. -/
theorem fusion_gate_iff (mode : FailureMode) (s : SLAMState) (f : FrameInput)
    (hm : f.hasMoreImages = true) :
    (Event.fuse ∈ (run mode s f).events ↔
      s.fusionEnabled = true ∧ (run mode s f).eff ≠ .FAILED ∧
        ((run mode s f).eff ≠ .POOR ∨ s.fusedFramesCount < s.initialFramesToFuse) ∧
        f.fallibleLost ≠ some true) := by
  have hm2 : ¬ f.hasMoreImages = false := by simp [hm]
  rw [run, if_neg hm2]
  simp only [runFrame]
  rw [finishFrame_eff]
  rw [finishFrame_fuse_mem_iff _ _ _ _ _ (by split <;> simp) (resolve_fuse_not_mem _ _ _ _)]
  rw [fusionGate_eq_true_iff]
  rw [resolve_fusionEnabled, resolve_fusedFramesCount, resolve_initialFramesToFuse,
      trackStep_fusionEnabled, trackStep_fusedFramesCount, trackStep_initialFramesToFuse]

theorem fusion_gate_iff_witness :
    frameBasic.hasMoreImages = true ∧
      (Event.fuse ∈ (run .IGNORE sInit frameBasic).events ↔
        sInit.fusionEnabled = true ∧ (run .IGNORE sInit frameBasic).eff ≠ .FAILED ∧
          ((run .IGNORE sInit frameBasic).eff ≠ .POOR ∨
            sInit.fusedFramesCount < sInit.initialFramesToFuse) ∧
          frameBasic.fallibleLost ≠ some true) :=
  ⟨rfl, fusion_gate_iff .IGNORE sInit frameBasic rfl⟩

/-- Per-call accounting: `fusedFramesCount` grows by exactly one when the
fuse operation runs, and is unchanged otherwise. -/
theorem run_fusedFramesCount_aux (mode : FailureMode) (s : SLAMState) (f : FrameInput) :
    (run mode s f).state.fusedFramesCount =
      s.fusedFramesCount + (if Event.fuse ∈ (run mode s f).events then 1 else 0) := by
  by_cases hm : f.hasMoreImages = false
  · rw [run, if_pos hm]; simp
  · rw [run, if_neg hm]
    simp only [runFrame]
    have h1 : Event.fuse ∉ (if 0 < s.fusedFramesCount then [Event.track s.pose] else []) := by
      split <;> simp
    have hmem := finishFrame_fuse_mem_iff s f
      (if 0 < s.fusedFramesCount then [Event.track s.pose] else [])
      (resolveFailureMode mode (trackStep s f) f (trackStep s f).trackerResult)
      (trackStep s f).trackerResult h1 (resolve_fuse_not_mem _ _ _ _)
    rw [if_congr hmem rfl rfl, finishFrame_fusedFramesCount,
        resolve_fusedFramesCount, trackStep_fusedFramesCount]
    split <;> simp

/-- Trace accounting: over any sequence of `run` calls, the final count
is the initial count plus the number of calls whose trace contains the
fuse event. -/
theorem trace_fusedFramesCount (mode : FailureMode) :
    ∀ (fs : List FrameInput) (s : SLAMState),
      (runTrace mode s fs).1.fusedFramesCount =
        s.fusedFramesCount +
          (runTrace mode s fs).2.countP (fun r => decide (Event.fuse ∈ r.events))
  | [], s => by simp [runTrace]
  | f :: fs, s => by
    simp only [runTrace, List.countP_cons]
    rw [trace_fusedFramesCount mode fs (run mode s f).state,
        run_fusedFramesCount_aux mode s f]
    by_cases h : Event.fuse ∈ (run mode s f).events <;> simp [h] <;> omega

/-- Claim C6: across every sequence of `run()` calls, `fusedFramesCount`
never decreases, and it is incremented by exactly one on precisely those
calls in which the fusion gate permitted fusion and the dense mapper's
fuse operation was invoked (the fuse event occurs), being unchanged on
all other calls. -/
theorem fusedFramesCount_accounting (mode : FailureMode) (s : SLAMState) :
    (∀ fs : List FrameInput,
       (runTrace mode s fs).1.fusedFramesCount =
         s.fusedFramesCount +
           (runTrace mode s fs).2.countP (fun r => decide (Event.fuse ∈ r.events))) ∧
    (∀ fs : List FrameInput,
       s.fusedFramesCount ≤ (runTrace mode s fs).1.fusedFramesCount) ∧
    (∀ f : FrameInput,
       (run mode s f).state.fusedFramesCount =
         s.fusedFramesCount + (if Event.fuse ∈ (run mode s f).events then 1 else 0)) :=
  ⟨fun fs => trace_fusedFramesCount mode fs s,
   fun fs => by rw [trace_fusedFramesCount mode fs s]; omega,
   fun f => run_fusedFramesCount_aux mode s f⟩

/-- Claim C9: on a `run()` call made while `fusedFramesCount = 0`, the
line-116 tracking step is skipped entirely (no tracker invocation occurs
before policy resolution, under any failure mode); in particular, on
such a first frame under the Ignore policy the effective verdict is
GOOD, and given `FusionEnabled` true and no lost-tracking report, the
scene is fused and `fusedFramesCount` becomes 1. -/
theorem first_frame_skips_tracking (s : SLAMState) (f : FrameInput)
    (h0 : s.fusedFramesCount = 0) (hm : f.hasMoreImages = true) :
    (∀ (mode : FailureMode) (p : Pose), Event.track p ∉ (run mode s f).events) ∧
    (run .IGNORE s f).eff = .GOOD ∧
    (s.fusionEnabled = true → f.fallibleLost ≠ some true →
      Event.fuse ∈ (run .IGNORE s f).events ∧
        (run .IGNORE s f).state.fusedFramesCount = 1) := by
  have hm2 : ¬ f.hasMoreImages = false := by simp [hm]
  have heffG : (resolveFailureMode .IGNORE (trackStep s f) f
      (trackStep s f).trackerResult).eff = TrackingResult.GOOD := rfl
  refine ⟨?_, ?_, ?_⟩
  · intro mode p
    rw [run, if_neg hm2]
    simp only [runFrame]
    apply finishFrame_track_not_mem
    · rw [h0]; simp
    · exact resolve_track_not_mem _ _ _ _ _
  · rw [run, if_neg hm2]
    simp only [runFrame]
    rw [finishFrame_eff]
    exact heffG
  · intro hen hlost
    rw [run, if_neg hm2]
    simp only [runFrame]
    have hgate : fusionGate (resolveFailureMode .IGNORE (trackStep s f) f
        (trackStep s f).trackerResult).state f
        (resolveFailureMode .IGNORE (trackStep s f) f
          (trackStep s f).trackerResult).eff = true := by
      rw [fusionGate_eq_true_iff]
      refine ⟨?_, ?_, ?_, hlost⟩
      · rw [resolve_fusionEnabled, trackStep_fusionEnabled]; exact hen
      · rw [heffG]; simp
      · left; rw [heffG]; simp
    refine ⟨?_, ?_⟩
    · rw [finishFrame_fuse_mem_iff _ _ _ _ _ (by rw [h0]; simp) (resolve_fuse_not_mem _ _ _ _)]
      exact hgate
    · rw [finishFrame_fusedFramesCount, if_pos hgate, resolve_fusedFramesCount,
          trackStep_fusedFramesCount, h0]

theorem first_frame_skips_tracking_witness :
    sInit.fusedFramesCount = 0 ∧ frameBasic.hasMoreImages = true ∧
      Event.track 5 ∉ (run .RELOCALISE sInit frameBasic).events ∧
      (run .IGNORE sInit frameBasic).eff = .GOOD ∧
      (Event.fuse ∈ (run .IGNORE sInit frameBasic).events ∧
        (run .IGNORE sInit frameBasic).state.fusedFramesCount = 1) :=
  ⟨rfl, rfl,
   (first_frame_skips_tracking sInit frameBasic rfl rfl).1 .RELOCALISE 5,
   (first_frame_skips_tracking sInit frameBasic rfl rfl).2.1,
   (first_frame_skips_tracking sInit frameBasic rfl rfl).2.2 rfl (by decide)⟩

/-- Claim C10: the fusion-gate decision reads `FusionEnabled` from before
the end-of-call exhaustion check: on the very frame in which the active
sub-stream becomes exhausted, fusion still executes when the gate
conditions hold at decision time, `FusionEnabled` is false when the call
returns, and the counter is incremented for that frame. -/
theorem exhaustion_frame_still_fuses (mode : FailureMode) (s : SLAMState) (f : FrameInput)
    (hm : f.hasMoreImages = true) (hsub : f.substreamHasMore = false)
    (hen : s.fusionEnabled = true)
    (heff : (run mode s f).eff ≠ .FAILED)
    (hpoor : (run mode s f).eff = .POOR → s.fusedFramesCount < s.initialFramesToFuse)
    (hlost : f.fallibleLost ≠ some true) :
    Event.fuse ∈ (run mode s f).events ∧
      (run mode s f).state.fusionEnabled = false ∧
      (run mode s f).state.fusedFramesCount = s.fusedFramesCount + 1 := by
  have hm2 : ¬ f.hasMoreImages = false := by simp [hm]
  rw [run, if_neg hm2] at heff hpoor ⊢
  simp only [runFrame] at heff hpoor ⊢
  rw [finishFrame_eff] at heff hpoor
  have hgate : fusionGate (resolveFailureMode mode (trackStep s f) f
      (trackStep s f).trackerResult).state f
      (resolveFailureMode mode (trackStep s f) f
        (trackStep s f).trackerResult).eff = true := by
    rw [fusionGate_eq_true_iff]
    refine ⟨?_, heff, ?_, hlost⟩
    · rw [resolve_fusionEnabled, trackStep_fusionEnabled]; exact hen
    · rw [resolve_fusedFramesCount, trackStep_fusedFramesCount,
          resolve_initialFramesToFuse, trackStep_initialFramesToFuse]
      by_cases hp : (resolveFailureMode mode (trackStep s f) f
          (trackStep s f).trackerResult).eff = .POOR
      · exact Or.inr (hpoor hp)
      · exact Or.inl hp
  refine ⟨?_, ?_, ?_⟩
  · rw [finishFrame_fuse_mem_iff _ _ _ _ _ (by split <;> simp) (resolve_fuse_not_mem _ _ _ _)]
    exact hgate
  · exact finishFrame_fusionEnabled_exhausted _ _ _ _ _ hsub
  · rw [finishFrame_fusedFramesCount, if_pos hgate, resolve_fusedFramesCount,
        trackStep_fusedFramesCount]

/-- A frame on which the active sub-stream reports exhaustion. -/
def frameLast : FrameInput :=
  { frameBasic with substreamHasMore := false }

/-- Claim C7: under the Relocalise policy (with the relocaliser
honouring its contract of adding a keyframe only when asked to consider
one, `(f.reloc false).1 < 0`), the candidacy flag is passed true exactly
when the raw verdict is GOOD and `keyframeDelay = 0`; and whenever a new
keyframe id is returned, the frame's raw and effective verdicts are GOOD
and the current pose is stored in the pose database under that id before
`run()` returns, so no keyframe id lacks a matching pose record. -/
theorem keyframe_only_on_good_frames (s : SLAMState) (f : FrameInput)
    (hm : f.hasMoreImages = true)
    (hcontract : (f.reloc false).1 < 0) :
    ((run .RELOCALISE s f).considerKeyframe = true ↔
      (run .RELOCALISE s f).raw = .GOOD ∧ s.keyframeDelay = 0) ∧
    (0 ≤ (f.reloc (run .RELOCALISE s f).considerKeyframe).1 →
      (run .RELOCALISE s f).raw = .GOOD ∧ (run .RELOCALISE s f).eff = .GOOD ∧
      ∃ p : Pose,
        Event.storePose (f.reloc (run .RELOCALISE s f).considerKeyframe).1 p ∈
          (run .RELOCALISE s f).events ∧
        ((f.reloc (run .RELOCALISE s f).considerKeyframe).1, p) ∈
          (run .RELOCALISE s f).state.poseDB) := by
  have hm2 : ¬ f.hasMoreImages = false := by simp [hm]
  rw [run, if_neg hm2]
  simp only [runFrame]
  rw [finishFrame_considerKeyframe, finishFrame_raw, finishFrame_eff,
      resolveReloc_considerKeyframe, trackStep_keyframeDelay]
  constructor
  · simp
  · intro hkid
    cases hck : ((trackStep s f).trackerResult == TrackingResult.GOOD
        && (s.keyframeDelay == 0)) with
    | false =>
      rw [hck] at hkid
      omega
    | true =>
      rw [hck] at hkid
      have hG : (trackStep s f).trackerResult = .GOOD ∧ s.keyframeDelay = 0 := by
        simpa using hck
      have h2 : 0 ≤ (f.reloc ((trackStep s f).trackerResult == TrackingResult.GOOD
          && ((trackStep s f).keyframeDelay == 0))).1 := by
        rw [trackStep_keyframeDelay, hck]
        exact hkid
      obtain ⟨he, hev, hdb⟩ := resolveReloc_store (trackStep s f) f
        (trackStep s f).trackerResult h2
      rw [trackStep_keyframeDelay, hck] at hev hdb
      refine ⟨hG.1, ?_, ?_⟩
      · rw [he]; exact hG.1
      · refine ⟨(trackStep s f).pose, ?_, ?_⟩
        · exact finishFrame_mem_of_policy _ _ _ _ _ _ hev
        · rw [finishFrame_poseDB]
          exact hdb

/-- A frame input whose relocaliser accepts the frame as keyframe 3 when
asked to consider it. -/
def frameKeyframe : FrameInput :=
  { frameBasic with reloc := fun ck => (if ck then 3 else -1, -1) }

theorem keyframe_only_on_good_frames_witness :
    frameKeyframe.hasMoreImages = true ∧ (frameKeyframe.reloc false).1 < 0 ∧
      (((run .RELOCALISE sInit frameKeyframe).considerKeyframe = true ↔
          (run .RELOCALISE sInit frameKeyframe).raw = .GOOD ∧ sInit.keyframeDelay = 0) ∧
       (0 ≤ (frameKeyframe.reloc (run .RELOCALISE sInit frameKeyframe).considerKeyframe).1 →
         (run .RELOCALISE sInit frameKeyframe).raw = .GOOD ∧
         (run .RELOCALISE sInit frameKeyframe).eff = .GOOD ∧
         ∃ p : Pose,
           Event.storePose
               (frameKeyframe.reloc (run .RELOCALISE sInit frameKeyframe).considerKeyframe).1 p ∈
             (run .RELOCALISE sInit frameKeyframe).events ∧
           ((frameKeyframe.reloc (run .RELOCALISE sInit frameKeyframe).considerKeyframe).1, p) ∈
             (run .RELOCALISE sInit frameKeyframe).state.poseDB)) :=
  ⟨rfl, by decide, keyframe_only_on_good_frames sInit frameKeyframe rfl (by decide)⟩

/-- Claim C3: under the Relocalise policy, on a frame whose raw verdict
is FAILED, whose relocaliser call returned no new keyframe id but did
return a nearest neighbour, `run()` performs recovery: it resets the
visibility list, re-runs the tracker preparation and tracking with the
pose retrieved from the pose database under the neighbour id (in that
order, after the relocaliser call), adopts the re-run verdict as the
frame's effective verdict, and sets `keyframeDelay` to 10. -/
theorem relocalisation_recovery_sequence (s : SLAMState) (f : FrameInput)
    (hm : f.hasMoreImages = true)
    (hraw : (run .RELOCALISE s f).raw = .FAILED)
    (hkid : (f.reloc false).1 < 0)
    (hnn : (f.reloc false).2 ≠ -1) :
    List.IsInfix
      [Event.relocProcess false, Event.updateVisible true, Event.prepare,
        Event.retrack (dbRetrieve s.poseDB (f.reloc false).2)]
      (run .RELOCALISE s f).events ∧
    (run .RELOCALISE s f).eff = (f.track2 (dbRetrieve s.poseDB (f.reloc false).2)).2 ∧
    (run .RELOCALISE s f).state.trackerResult =
      (f.track2 (dbRetrieve s.poseDB (f.reloc false).2)).2 ∧
    (run .RELOCALISE s f).state.keyframeDelay = 10 := by
  have hm2 : ¬ f.hasMoreImages = false := by simp [hm]
  rw [run, if_neg hm2] at hraw ⊢
  simp only [runFrame] at hraw ⊢
  rw [finishFrame_raw] at hraw
  rw [finishFrame_eff, finishFrame_trackerResult, finishFrame_keyframeDelay, hraw]
  have hrec := resolveReloc_recover (trackStep s f) f hkid hnn
  rw [trackStep_poseDB] at hrec
  obtain ⟨he, hev, hkd, htr, _⟩ := hrec
  refine ⟨?_, he, htr, hkd⟩
  rw [finishFrame_events, hev]
  exact infix_middle _ _ _ _

/-- A state with a single stored keyframe pose under id 7, whose
leftover verdict is FAILED. -/
def sRecover : SLAMState :=
  { sFailed with poseDB := [(7, 42)] }

/-- A frame whose relocaliser finds nearest neighbour 7 and no new
keyframe. -/
def frameRecover : FrameInput :=
  { frameBasic with reloc := fun _ => (-1, 7) }

/-- `run` never turns the fusion flag back on: once false, it stays
false across a single call. -/
theorem run_fusionEnabled_mono (mode : FailureMode) (s : SLAMState) (f : FrameInput)
    (h : s.fusionEnabled = false) :
    (run mode s f).state.fusionEnabled = false := by
  by_cases hm : f.hasMoreImages = false
  · rw [run, if_pos hm]; exact h
  · rw [run, if_neg hm]
    simp only [runFrame]
    rw [finishFrame_fusionEnabled, resolve_fusionEnabled, trackStep_fusionEnabled]
    split
    · rfl
    · exact h

/-- Once the fusion flag is false, every later `run` call leaves it
false, along the whole trace. -/
theorem trace_fusionEnabled_mono (mode : FailureMode) :
    ∀ (fs : List FrameInput) (s : SLAMState), s.fusionEnabled = false →
      (runTrace mode s fs).1.fusionEnabled = false ∧
      ∀ r ∈ (runTrace mode s fs).2, r.state.fusionEnabled = false
  | [], s, h => by simpa [runTrace] using h
  | f :: fs, s, h => by
    simp only [runTrace]
    have h1 := run_fusionEnabled_mono mode s f h
    have ih := trace_fusionEnabled_mono mode fs (run mode s f).state h1
    refine ⟨ih.1, ?_⟩
    intro r hr
    simp only [List.mem_cons] at hr
    rcases hr with hr | hr
    · rw [hr]; exact h1
    · exact ih.2 r hr

/-- Counterexample to claim C5 as stated: the exhaustion-driven disable
is not immune to external re-enabling.  After a `run()` call observes
sub-stream exhaustion (leaving `FusionEnabled` false), an external
`set_fusion_enabled(true)` call makes the flag true again, and the next
`run()` call even fuses. -/
theorem fusion_reenabled_after_exhaustion_cex :
    (run .IGNORE sInit frameLast).state.fusionEnabled = false ∧
      get_fusion_enabled
        (set_fusion_enabled (run .IGNORE sInit frameLast).state true) = true ∧
      (set_fusion_enabled (run .IGNORE sInit frameLast).state true).fusionEnabled = true ∧
      Event.fuse ∈ (run .IGNORE
        (set_fusion_enabled (run .IGNORE sInit frameLast).state true) frameBasic).events :=
  ⟨by decide, by decide, by decide, by decide⟩

/-- Claim C5 (amended): once a `run()` call observes that the active
sub-stream is exhausted, it returns with `FusionEnabled` false, and the
flag then remains false for all subsequent `run()` calls — no `run()`
call ever re-enables it.  (The one-way transition is *not* immune to a
later external `set_fusion_enabled(true)`, which does set the flag back
to true; see the counterexample.) -/
theorem fusion_disable_one_way_under_runs (mode : FailureMode) :
    (∀ (s : SLAMState) (f : FrameInput), f.hasMoreImages = true →
        f.substreamHasMore = false → (run mode s f).state.fusionEnabled = false) ∧
    (∀ (s : SLAMState) (fs : List FrameInput), s.fusionEnabled = false →
        (runTrace mode s fs).1.fusionEnabled = false ∧
        ∀ r ∈ (runTrace mode s fs).2, r.state.fusionEnabled = false) := by
  constructor
  · intro s f hm hsub
    have hm2 : ¬ f.hasMoreImages = false := by simp [hm]
    rw [run, if_neg hm2]
    simp only [runFrame]
    exact finishFrame_fusionEnabled_exhausted _ _ _ _ _ hsub
  · intro s fs h
    exact trace_fusionEnabled_mono mode fs s h

theorem fusion_disable_one_way_under_runs_witness :
    frameLast.hasMoreImages = true ∧ frameLast.substreamHasMore = false ∧
      (run .IGNORE sInit frameLast).state.fusionEnabled = false ∧
      (runTrace .IGNORE (run .IGNORE sInit frameLast).state
        [frameBasic, frameBasic]).1.fusionEnabled = false :=
  ⟨rfl, rfl,
   (fusion_disable_one_way_under_runs .IGNORE).1 sInit frameLast rfl rfl,
   ((fusion_disable_one_way_under_runs .IGNORE).2 (run .IGNORE sInit frameLast).state
      [frameBasic, frameBasic] (by decide)).1⟩

theorem relocalisation_recovery_sequence_witness :
    frameRecover.hasMoreImages = true ∧
      (run .RELOCALISE sRecover frameRecover).raw = .FAILED ∧
      (frameRecover.reloc false).1 < 0 ∧ (frameRecover.reloc false).2 ≠ -1 ∧
      (List.IsInfix
        [Event.relocProcess false, Event.updateVisible true, Event.prepare,
          Event.retrack (dbRetrieve sRecover.poseDB (frameRecover.reloc false).2)]
        (run .RELOCALISE sRecover frameRecover).events ∧
       (run .RELOCALISE sRecover frameRecover).eff =
         (frameRecover.track2 (dbRetrieve sRecover.poseDB (frameRecover.reloc false).2)).2 ∧
       (run .RELOCALISE sRecover frameRecover).state.trackerResult =
         (frameRecover.track2 (dbRetrieve sRecover.poseDB (frameRecover.reloc false).2)).2 ∧
       (run .RELOCALISE sRecover frameRecover).state.keyframeDelay = 10) :=
  ⟨rfl, by decide, by decide, by decide,
   relocalisation_recovery_sequence sRecover frameRecover rfl (by decide)
     (by decide) (by decide)⟩

theorem exhaustion_frame_still_fuses_witness :
    frameLast.hasMoreImages = true ∧ frameLast.substreamHasMore = false ∧
      sInit.fusionEnabled = true ∧
      (Event.fuse ∈ (run .IGNORE sInit frameLast).events ∧
        (run .IGNORE sInit frameLast).state.fusionEnabled = false ∧
        (run .IGNORE sInit frameLast).state.fusedFramesCount = sInit.fusedFramesCount + 1) :=
  ⟨rfl, rfl, rfl,
   exhaustion_frame_still_fuses .IGNORE sInit frameLast rfl rfl rfl
     (by decide) (by decide) (by decide)⟩

/-- Frame whose tracker reports POOR without moving the pose. -/
def frameP : FrameInput :=
  { frameBasic with track1 := fun p => (p, .POOR) }

/-- A post-recovery state: cooldown at 10, one frame already fused so
the tracker runs on every frame, fusion disabled. -/
def sCooldown : SLAMState :=
  { sInit with fusedFramesCount := 1, fusionEnabled := false, keyframeDelay := 10 }

/-- Eleven GOOD-verdict frames strictly alternating with ten POOR
frames: no two consecutive frames ever track GOOD. -/
def traceAlternating : List FrameInput :=
  [frameBasic, frameP, frameBasic, frameP, frameBasic, frameP, frameBasic, frameP,
   frameBasic, frameP, frameBasic, frameP, frameBasic, frameP, frameBasic, frameP,
   frameBasic, frameP, frameBasic, frameP, frameBasic]

/-- Counterexample to claim C4 as stated: starting from a post-recovery
state (`keyframeDelay = 10`), along a trace that alternates GOOD and
POOR raw verdicts — so no two consecutive frames are GOOD, let alone
ten — the candidacy flag is nevertheless eventually passed true: ten
GOOD-verdict frames suffice even when they are not consecutive, because
the countdown does not reset on intervening non-GOOD frames. -/
theorem keyframe_cooldown_nonconsecutive_cex :
    sCooldown.keyframeDelay = 10 ∧
    (∃ r ∈ (runTrace .RELOCALISE sCooldown traceAlternating).2,
      r.considerKeyframe = true) ∧
    (∀ r ∈ (runTrace .RELOCALISE sCooldown traceAlternating).2, r.ok = true) ∧
    (((runTrace .RELOCALISE sCooldown traceAlternating).2.zip
        (runTrace .RELOCALISE sCooldown traceAlternating).2.tail).all
      (fun ab => !(ab.1.raw == TrackingResult.GOOD && ab.2.raw == TrackingResult.GOOD))) =
      true :=
  ⟨rfl, by decide, by decide, by decide⟩

/-- Claim C4 (corrected): under the Relocalise policy, after any frame
on which relocalisation recovery triggers, `keyframeDelay` equals
exactly 10; and from any state with `keyframeDelay = 10`, no subsequent
frame passes the keyframe-candidacy flag as true until more than ten
processed frames with a GOOD raw verdict have elapsed.  The ten
GOOD-verdict frames need not be consecutive: intervening non-GOOD
frames do not reset the countdown (see the counterexample). -/
theorem keyframe_cooldown_after_recovery :
    (∀ (s : SLAMState) (f : FrameInput), f.hasMoreImages = true →
        (run .RELOCALISE s f).raw = .FAILED → (f.reloc false).1 < 0 →
        (f.reloc false).2 ≠ -1 →
        (run .RELOCALISE s f).state.keyframeDelay = 10) ∧
    (∀ (s : SLAMState) (fs : List FrameInput), s.keyframeDelay = 10 →
        (runTrace .RELOCALISE s fs).2.countP
            (fun x => x.ok && (x.raw == TrackingResult.GOOD)) ≤ 10 →
        ∀ r ∈ (runTrace .RELOCALISE s fs).2, r.considerKeyframe = false) := by
  constructor
  · intro s f hm hraw hkid hnn
    have hm2 : ¬ f.hasMoreImages = false := by simp [hm]
    rw [run, if_neg hm2] at hraw ⊢
    simp only [runFrame] at hraw ⊢
    rw [finishFrame_raw] at hraw
    rw [finishFrame_keyframeDelay, hraw]
    exact (resolveReloc_recover (trackStep s f) f hkid hnn).2.2.1
  · intro s fs hd hcount r hr
    by_contra hflag
    have hflag2 : r.considerKeyframe = true := by
      simpa using hflag
    have hinv := cooldown_invariant fs s (by omega) r hr hflag2
    omega

theorem keyframe_cooldown_after_recovery_witness :
    frameRecover.hasMoreImages = true ∧
      (run .RELOCALISE sRecover frameRecover).raw = .FAILED ∧
      (run .RELOCALISE sRecover frameRecover).state.keyframeDelay = 10 ∧
      sCooldown.keyframeDelay = 10 ∧
      (∀ r ∈ (runTrace .RELOCALISE sCooldown [frameBasic]).2,
        r.considerKeyframe = false) :=
  ⟨rfl, by decide,
   keyframe_cooldown_after_recovery.1 sRecover frameRecover rfl (by decide)
     (by decide) (by decide),
   rfl,
   keyframe_cooldown_after_recovery.2 sCooldown [frameBasic] rfl (by decide)⟩

end Spaint
